import Mathlib

/-!
# Verification of the ai-voice-agent conversation core

Shallow embedding of the conversation orchestration backend
(`backend/app/services/conversation_state_service.py`,
`backend/app/services/conversation_flow_service.py`,
`backend/app/services/nlp_service.py`, `backend/app/scenarios/driver_checkin.py`).

Modelling conventions:
* Python dynamic values are modelled by `PyVal` (None / bool / str / number);
  numbers are rationals, which agree with the Python floats used by the code
  (0.6, 0.7, 0.8, 0.9) on every comparison the code performs.
* Python dicts are modelled by insertion-ordered association lists with
  unique keys; assignment replaces the value of an existing key in place and
  otherwise appends, exactly like a Python dict preserves insertion order.
* External collaborators (the database, the OpenAI client, the agent lookup
  and the LLM call) are modelled as parameters: a fallible call is a
  `Except Unit` valued function, mirroring a Python call that may raise.
* `datetime.utcnow()` is modelled by threading an explicit `now : String`
  timestamp parameter through every mutator that stamps a timestamp.
-/

namespace VoiceAgent

/-- Python-style dynamic value: `None`, booleans, strings, or numbers. -/
inductive PyVal where
  | none
  | bool (b : Bool)
  | str (s : String)
  | num (q : ℚ)
  deriving DecidableEq, Repr

/-- Python truthiness: `None`, `False`, `""` and `0` are falsy. -/
def PyVal.truthy : PyVal → Bool
  | .none => false
  | .bool b => b
  | .str s => !(s.isEmpty)
  | .num q => decide (q ≠ 0)

/-- A Python `dict` with `PyVal` values, as an insertion-ordered
association list with unique keys. -/
abbrev Dict := List (String × PyVal)

/-- `d.get(k)` on an association list: first binding of `k`, if any. -/
def aget {α : Type} : List (String × α) → String → Option α
  | [], _ => Option.none
  | (k', v) :: t, k => if k' = k then some v else aget t k

/-- `d[k] = v` on an association list: replace the first binding of `k`
in place, or append a new binding at the end (Python dicts keep
insertion order). -/
def aset {α : Type} : List (String × α) → String → α → List (String × α)
  | [], k, v => [(k, v)]
  | (k', v') :: t, k, v => if k' = k then (k, v) :: t else (k', v') :: aset t k v

/-- The keys of an association list, in order. -/
def akeys {α : Type} (d : List (String × α)) : List String := d.map Prod.fst

/-- `d.get(k)` returning Python `None` when the key is absent. -/
def dget (d : Dict) (k : String) : PyVal := (aget d k).getD .none

/-- Number of bindings an association list holds for key `k`. -/
def keyCount {α : Type} (d : List (String × α)) (k : String) : Nat :=
  (d.filter (fun p => p.1 = k)).length

/-- `a` is a (character-wise) leading segment of `b`. -/
def leadEq : List Char → List Char → Bool
  | [], _ => true
  | _ :: _, [] => false
  | a :: as, b :: bs => a == b && leadEq as bs

/-- `needle` occurs as a contiguous segment of the character list. -/
def tailHas (needle : List Char) : List Char → Bool
  | [] => leadEq needle []
  | c :: cs => leadEq needle (c :: cs) || tailHas needle cs

/-- Python's substring test `needle in haystack`. -/
def strIn (needle haystack : String) : Bool :=
  tailHas needle.toList haystack.toList

/-- Python's `str.lower()`, character by character (all vocabulary used by
the code is ASCII, where this agrees with Python). -/
def pyLower (s : String) : String := ⟨s.data.map Char.toLower⟩

/-- `text` contains `term` as a substring, compared case-insensitively
(the spec's reading of "case-insensitive substring match"). -/
def containsCI (text term : String) : Bool :=
  strIn (pyLower term) (pyLower text)

/-! ## NLP service (`backend/app/services/nlp_service.py`) -/

namespace NLPService

/-- `NLPService.emergency_keywords` (nlp_service.py lines 16-22). -/
def emergency_keywords : List String :=
  ["emergency", "accident", "crash", "collision", "blowout", "breakdown",
   "medical", "injured", "hurt", "sick", "hospital", "ambulance",
   "fire", "smoke", "explosion", "leak", "hazmat", "dangerous",
   "stuck", "stranded", "disabled", "mechanical", "engine", "flat tire",
   "help", "urgent", "critical", "serious", "problem", "trouble"]

/-- `NLPService.detect_emergency_trigger`: any emergency keyword occurs in
the lower-cased message. -/
def detect_emergency_trigger (message : String) : Bool :=
  emergency_keywords.any (fun kw => strIn kw (pyLower message))

/-- `NLPService.extract_emergency_keywords`: the emergency keywords that
occur in the lower-cased message, in vocabulary order. -/
def extract_emergency_keywords (message : String) : List String :=
  emergency_keywords.filter (fun kw => strIn kw (pyLower message))

/-- `value if value is not None else PyVal.none` for `Optional[str]` results. -/
def optStr : Option String → PyVal
  | some s => .str s
  | Option.none => .none

/-- `NLPService._extract_delay_reason`: first delay category (in the
source's dict insertion order) with a keyword in the lower-cased
transcript, title-cased. -/
def extract_delay_reason (transcript : String) : Option String :=
  let tl := pyLower transcript
  if ["traffic", "congestion", "jam"].any (fun w => strIn w tl) then some "Traffic"
  else if ["weather", "rain", "snow", "fog", "storm"].any (fun w => strIn w tl) then some "Weather"
  else if ["mechanical", "breakdown", "engine", "tire"].any (fun w => strIn w tl) then some "Mechanical"
  else if ["loading", "waiting", "dock", "appointment"].any (fun w => strIn w tl) then some "Loading"
  else if ["delayed", "late", "behind"].any (fun w => strIn w tl) then some "Other"
  else Option.none

/-- `NLPService._rule_based_extract_checkin`. The two regex helpers
`_extract_location` and `_extract_eta` (thin wrappers around Python's
`re.search`) are passed as function parameters `extLoc` / `extEta`. -/
def rule_based_extract_checkin (extLoc extEta : String → Option String)
    (transcript : String) : Dict :=
  let tl := pyLower transcript
  let call_outcome : PyVal :=
    if ["arrived", "here", "at the dock", "at destination"].any (fun w => strIn w tl) then
      .str "Arrival Confirmation"
    else if ["driving", "on the road", "en route", "traveling"].any (fun w => strIn w tl) then
      .str "In-Transit Update"
    else .none
  let driver_status : PyVal :=
    if ["driving", "on the road"].any (fun w => strIn w tl) then .str "Driving"
    else if ["delayed", "late", "behind", "stuck"].any (fun w => strIn w tl) then .str "Delayed"
    else if ["arrived", "here", "at the"].any (fun w => strIn w tl) then .str "Arrived"
    else if ["unloading", "offloading", "door"].any (fun w => strIn w tl) then .str "Unloading"
    else .none
  let pod_acknowledged : Bool :=
    ["pod", "proof of delivery", "paperwork", "documents"].any (fun w => strIn w tl)
  [("call_outcome", call_outcome),
   ("driver_status", driver_status),
   ("current_location", optStr (extLoc transcript)),
   ("eta", optStr (extEta transcript)),
   ("delay_reason", optStr (extract_delay_reason transcript)),
   ("unloading_status", .none),
   ("pod_reminder_acknowledged", .bool pod_acknowledged),
   ("extraction_method", .str "rule_based"),
   ("confidence_score", .num (mkRat 3 5))]

/-- `NLPService._rule_based_extract_emergency`, with the regex helper
`_extract_location` as the parameter `extLoc`. -/
def rule_based_extract_emergency (extLoc : String → Option String)
    (transcript : String) : Dict :=
  let tl := pyLower transcript
  let emergency_type : PyVal :=
    if ["accident", "crash", "collision"].any (fun w => strIn w tl) then .str "Accident"
    else if ["breakdown", "mechanical", "engine", "blowout"].any (fun w => strIn w tl) then
      .str "Breakdown"
    else if ["medical", "injured", "hurt", "sick"].any (fun w => strIn w tl) then .str "Medical"
    else .str "Other"
  let safety_status : PyVal :=
    if ["everyone is safe", "we\u0027re safe", "no injuries"].any (fun w => strIn w tl) then
      .str "Everyone is safe"
    else if ["someone is hurt", "injured", "need ambulance"].any (fun w => strIn w tl) then
      .str "Injuries reported"
    else .none
  let injury_status : PyVal :=
    if ["injured", "hurt", "bleeding", "unconscious"].any (fun w => strIn w tl) then
      .str "Injuries reported"
    else .str "No injuries reported"
  let load_secure : PyVal :=
    .bool (!(["load shifted", "cargo damaged", "spilled"].any (fun w => strIn w tl)))
  [("call_outcome", .str "Emergency Escalation"),
   ("emergency_type", emergency_type),
   ("safety_status", safety_status),
   ("injury_status", injury_status),
   ("emergency_location", optStr (extLoc transcript)),
   ("load_secure", load_secure),
   ("escalation_status", .str "Connected to Human Dispatcher"),
   ("extraction_method", .str "rule_based"),
   ("confidence_score", .num (mkRat 7 10))]

/-- `d.get(k, default)` where the code then treats the value as a number
(every `confidence_score` the code stores is a number). -/
def ratGetD (d : Dict) (k : String) (dflt : ℚ) : ℚ :=
  match aget d k with
  | some (.num q) => q
  | _ => dflt

/-- The backfill loop of `NLPService._combine_extraction_results`:
`for key, value in items: if key not in excl and not combined.get(key):
combined[key] = value`. -/
def backfill (c : Dict) (items : Dict) (excl : List String) : Dict :=
  items.foldl
    (fun acc kv =>
      if kv.1 ∉ excl ∧ (dget acc kv.1).truthy = false then aset acc kv.1 kv.2 else acc)
    c

/-- The branch part of `NLPService._combine_extraction_results` (everything
before the trailing metadata assignments). -/
def combine_core (openai_result rule_based_result : Dict) : Dict :=
  if ratGetD openai_result "confidence_score" 0 > mkRat 4 5 then
    let c := backfill openai_result rule_based_result
      ["extraction_method", "confidence_score"]
    aset c "extraction_method" (.str "openai_primary")
  else
    let c := backfill rule_based_result openai_result
      ["extraction_method", "confidence_score", "error"]
    let c := aset c "extraction_method" (.str "rule_based_primary")
    aset c "confidence_score" (.num (min (mkRat 4 5) (ratGetD c "confidence_score" (mkRat 3 5))))

/-- `NLPService._combine_extraction_results` (`now` models
`datetime.utcnow().isoformat()`). -/
def combine_extraction_results (openai_result rule_based_result : Dict)
    (scenario_type now : String) : Dict :=
  aset (aset (combine_core openai_result rule_based_result)
    "extracted_at" (.str now)) "scenario_type" (.str scenario_type)

/-- `NLPService.extract_structured_data`, with the awaited OpenAI extractor
results passed in as the deterministic stubs `openaiCheckin` /
`openaiEmergency` (the `_openai_extract_*` helpers already catch their own
exceptions and return an error dict with confidence 0.0, so the outer
`try` in the source never fires here). -/
def extract_structured_data (openaiCheckin openaiEmergency : Dict)
    (extLoc extEta : String → Option String)
    (transcript scenario_type now : String) : Dict :=
  if scenario_type = "check_in" then
    combine_extraction_results openaiCheckin
      (rule_based_extract_checkin extLoc extEta transcript) "check_in" now
  else if scenario_type = "emergency" then
    combine_extraction_results openaiEmergency
      (rule_based_extract_emergency extLoc transcript) "emergency" now
  else
    [("error", .str "Unknown scenario type"), ("confidence_score", .num 0)]

end NLPService

/-! ## Conversation state service
(`backend/app/services/conversation_state_service.py`) -/

/-- `ScenarioType` as used by the flow service (`ScenarioType.DRIVER_CHECKIN`).
The importing module names `app.models.agent.ScenarioType`, whose member set
is modelled from its uses (`"driver_checkin"` is the default value in
`app/api/routes/webhooks.py`). -/
inductive ScenarioType where
  | DRIVER_CHECKIN
  | EMERGENCY_PROTOCOL
  deriving DecidableEq, Repr

/-- `ConversationState` (conversation_state_service.py lines 16-26). -/
inductive ConversationState where
  | INITIALIZING
  | GREETING
  | STATUS_INQUIRY
  | GATHERING_INFO
  | EMERGENCY_DETECTED
  | EMERGENCY_HANDLING
  | ESCALATING
  | CLOSING
  | COMPLETED
  deriving DecidableEq, Repr

/-- The `str` value of each `ConversationState` member. -/
def ConversationState.value : ConversationState → String
  | .INITIALIZING => "initializing"
  | .GREETING => "greeting"
  | .STATUS_INQUIRY => "status_inquiry"
  | .GATHERING_INFO => "gathering_info"
  | .EMERGENCY_DETECTED => "emergency_detected"
  | .EMERGENCY_HANDLING => "emergency_handling"
  | .ESCALATING => "escalating"
  | .CLOSING => "closing"
  | .COMPLETED => "completed"

/-- `ConversationState(s)`: the member with value `s`, or `none` where
Python raises `ValueError`. -/
def conversationStateOfString (s : String) : Option ConversationState :=
  if s = "initializing" then some .INITIALIZING
  else if s = "greeting" then some .GREETING
  else if s = "status_inquiry" then some .STATUS_INQUIRY
  else if s = "gathering_info" then some .GATHERING_INFO
  else if s = "emergency_detected" then some .EMERGENCY_DETECTED
  else if s = "emergency_handling" then some .EMERGENCY_HANDLING
  else if s = "escalating" then some .ESCALATING
  else if s = "closing" then some .CLOSING
  else if s = "completed" then some .COMPLETED
  else Option.none

/-- One entry of `ConversationContext.conversation_history`
(the dict built by `add_message`). -/
structure Message where
  role : String
  content : String
  timestamp : String
  turn : Nat
  metadata : Dict
  deriving DecidableEq, Repr

/-- `ConversationContext.__init__` state (timestamps as strings, threaded
in as `now`). -/
structure ConversationContext where
  call_id : String
  agent_id : String
  scenario_type : ScenarioType
  state : ConversationState
  context : Dict
  collected_data : Dict
  conversation_history : List Message
  emergency_detected : Bool
  turn_count : Nat
  created_at : String
  updated_at : String
  deriving DecidableEq, Repr

namespace ConversationContext

/-- `ConversationContext(call_id, agent_id, scenario_type)`. -/
def init (call_id agent_id : String) (scenario_type : ScenarioType)
    (now : String) : ConversationContext :=
  { call_id, agent_id, scenario_type
    state := .INITIALIZING
    context := []
    collected_data := []
    conversation_history := []
    emergency_detected := false
    turn_count := 0
    created_at := now
    updated_at := now }

/-- `ConversationContext.update_state`. -/
def update_state (c : ConversationContext) (new_state : ConversationState)
    (now : String) : ConversationContext :=
  { c with state := new_state, updated_at := now }

/-- `ConversationContext.add_message`: append to history with the current
turn index, then increment `turn_count`. -/
def add_message (c : ConversationContext) (role content now : String)
    (metadata : Dict := []) : ConversationContext :=
  { c with
    conversation_history := c.conversation_history ++
      [{ role, content, timestamp := now, turn := c.turn_count, metadata }]
    turn_count := c.turn_count + 1 }

/-- `ConversationContext.update_context`. -/
def update_context (c : ConversationContext) (key : String) (value : PyVal)
    (now : String) : ConversationContext :=
  { c with context := aset c.context key value, updated_at := now }

/-- `ConversationContext.update_collected_data`:
`self.collected_data.update(data)`. -/
def update_collected_data (c : ConversationContext) (data : Dict)
    (now : String) : ConversationContext :=
  { c with
    collected_data := data.foldl (fun d kv => aset d kv.1 kv.2) c.collected_data
    updated_at := now }

/-- The keyword list local to `ConversationContext.detect_emergency`
(conversation_state_service.py lines 75-79). -/
def ctx_emergency_keywords : List String :=
  ["emergency", "accident", "crash", "breakdown", "medical",
   "hurt", "injured", "hospital", "police", "fire", "ambulance",
   "help", "stuck", "blowout", "rollover", "collision"]

/-- The loop condition of `ConversationContext.detect_emergency`: some
keyword occurs in the lower-cased text. -/
def context_trigger_fired (text : String) : Bool :=
  ctx_emergency_keywords.any (fun kw => strIn kw (pyLower text))

/-- `ConversationContext.detect_emergency`: on a keyword hit, sets
`emergency_detected = True`, moves the state to `EMERGENCY_DETECTED` and
returns `True`; otherwise returns `False` unchanged. -/
def detect_emergency (c : ConversationContext) (text now : String) :
    Bool × ConversationContext :=
  if context_trigger_fired text then
    (true, update_state { c with emergency_detected := true } .EMERGENCY_DETECTED now)
  else
    (false, c)

end ConversationContext

/-- `ConversationStateService.active_conversations`: the keyed table of
live contexts. -/
abbrev ConvStore := List (String × ConversationContext)

/-- `ConversationStateService.get_conversation`. -/
def get_conversation (s : ConvStore) (call_id : String) :
    Option ConversationContext :=
  aget s call_id

/-- `ConversationStateService.initialize_conversation`: builds a fresh
context and assigns it to `active_conversations[call_id]` (the database
save `_save_conversation_state` is an external collaborator with no
effect on the live table). -/
def initialize_conversation (s : ConvStore) (call_id agent_id : String)
    (scenario_type : ScenarioType) (now : String) :
    ConversationContext × ConvStore :=
  let context := ConversationContext.init call_id agent_id scenario_type now
  (context, aset s call_id context)

/-! ## Conversation flow service
(`backend/app/services/conversation_flow_service.py`) -/

/-- The dict returned by every response path:
`{"response": ..., "response_id": ...}`. -/
structure FlowResponse where
  response : String
  response_id : Nat
  deriving DecidableEq, Repr

/-- The dict returned by
`llm_service.generate_conversation_response`: the fields
`_generate_llm_response` reads (`response`, `next_state`,
`emergency_detected`; an absent key is `none` / `false`). -/
structure LlmResponse where
  response : Option String
  next_state : Option String
  emergency_detected : Bool
  deriving DecidableEq, Repr

/-- The external collaborators of `ConversationFlowService`, as
parameters: a `.error` result models a raised exception. `call_details`
models `_get_call_details`, which already catches and returns `{}`;
agent records are string-keyed rows. -/
structure FlowEnv where
  get_agent : String → Except Unit (Option Dict)
  llm : String → List Message → Dict → ScenarioType → String → Except Unit LlmResponse
  call_details : String → List (String × String)

/-- `ConversationFlowService._get_default_response`. -/
def default_response (response_id : Nat) : FlowResponse :=
  { response := "I understand. Can you tell me more about your current situation?"
    response_id }

open ConversationContext in
/-- `ConversationFlowService._generate_llm_response`: call the LLM
(exceptions degrade to the default response), apply a suggested valid
`next_state`, set the emergency flag and state if the LLM reports one,
and answer with the LLM text or a fixed fallback. -/
def generate_llm_response (env : FlowEnv) (c : ConversationContext)
    (user_message : String) (agent : Dict) (response_id : Nat) (now : String) :
    FlowResponse × ConversationContext :=
  match env.llm user_message c.conversation_history agent c.scenario_type c.state.value with
  | .error _ => (default_response response_id, c)
  | .ok lr =>
    let c :=
      match lr.next_state with
      | some s =>
        if s.isEmpty then c
        else
          match conversationStateOfString s with
          | some st => update_state c st now
          | Option.none => c
      | Option.none => c
    let c :=
      if lr.emergency_detected then
        update_state { c with emergency_detected := true } .EMERGENCY_DETECTED now
      else c
    ({ response := lr.response.getD "I understand. Can you tell me more?", response_id }, c)

open ConversationContext in
/-- `ConversationFlowService._handle_initialization`. -/
def handle_initialization (env : FlowEnv) (c : ConversationContext)
    (response_id : Nat) (now : String) : FlowResponse × ConversationContext :=
  let c := update_state c .GREETING now
  let cd := env.call_details c.call_id
  let driver_name := (aget cd "driver_name").getD "driver"
  let load_number := (aget cd "load_number").getD "your load"
  let response_text :=
    if c.scenario_type = .DRIVER_CHECKIN then
      "Hi " ++ driver_name ++ ", this is dispatch with a check call on load "
        ++ load_number ++ ". Can you give me an update on your status?"
    else
      "Hi " ++ driver_name ++ ", this is dispatch calling about load "
        ++ load_number ++ ". How are things going?"
  ({ response := response_text, response_id }, c)

open ConversationContext in
/-- `ConversationFlowService._handle_greeting_response`. -/
def handle_greeting_response (c : ConversationContext) (user_message : String)
    (response_id : Nat) (now : String) : FlowResponse × ConversationContext :=
  let c := update_state c .STATUS_INQUIRY now
  let ul := pyLower user_message
  if ["arrived", "here", "at", "delivery", "pickup"].any (fun w => strIn w ul) then
    ({ response := "Great! Can you tell me about the unloading process? Are you in a door or waiting?"
       response_id },
     update_context c "likely_arrived" (.bool true) now)
  else if ["driving", "road", "highway", "miles"].any (fun w => strIn w ul) then
    ({ response := "Got it. What\u0027s your current location and estimated arrival time?"
       response_id },
     update_context c "status" (.str "driving") now)
  else if ["delayed", "stuck", "traffic", "problem"].any (fun w => strIn w ul) then
    ({ response := "I understand you\u0027re experiencing delays. Can you tell me what\u0027s causing the delay and your updated ETA?"
       response_id },
     update_context c "status" (.str "delayed") now)
  else
    ({ response := "Can you be more specific about your current status? Are you still driving, have you arrived, or are you experiencing any delays?"
       response_id }, c)

open ConversationContext in
/-- `ConversationFlowService._handle_status_response`. -/
def handle_status_response (env : FlowEnv) (c : ConversationContext)
    (user_message : String) (agent : Dict) (response_id : Nat) (now : String) :
    FlowResponse × ConversationContext :=
  let c := update_state c .GATHERING_INFO now
  let ul := pyLower user_message
  if strIn "arrived" ul || strIn "here" ul then
    ({ response := "Perfect. Are you currently unloading or waiting to get into a door? Also, please remember to get your POD signed when you\u0027re finished."
       response_id },
     update_collected_data c
       [("driver_status", .str "Arrived"), ("call_outcome", .str "Arrival Confirmation")] now)
  else if ["driving", "road", "miles"].any (fun w => strIn w ul) then
    ({ response := "Thanks for the update. Do you have an estimated arrival time?"
       response_id },
     update_collected_data c
       [("driver_status", .str "Driving"), ("call_outcome", .str "In-Transit Update")] now)
  else
    generate_llm_response env c user_message agent response_id now

open ConversationContext in
/-- `ConversationFlowService._has_sufficient_info`. -/
def has_sufficient_info (c : ConversationContext) : Bool :=
  if c.scenario_type = .DRIVER_CHECKIN then
    ["driver_status", "call_outcome"].all (fun f => (aget c.collected_data f).isSome)
  else
    decide (c.collected_data.length ≥ 2)

open ConversationContext in
/-- `ConversationFlowService._handle_info_gathering` (the `agent`
argument is unused by the source, as here). -/
def handle_info_gathering (c : ConversationContext) (user_message : String)
    (response_id : Nat) (now : String) : FlowResponse × ConversationContext :=
  let ul := pyLower user_message
  let collected : Dict :=
    if strIn "door" ul then [("unloading_status", .str ("In " ++ user_message))]
    else if strIn "waiting" ul then [("unloading_status", .str "Waiting for dock assignment")]
    else if ["am", "pm", "hour", "minute"].any (fun w => strIn w ul) then
      [("eta", .str user_message)]
    else if ["highway", "i-", "mile", "exit"].any (fun w => strIn w ul) then
      [("current_location", .str user_message)]
    else []
  let c := if collected.isEmpty then c else update_collected_data c collected now
  if has_sufficient_info c then
    ({ response := "Thank you for the update. Is there anything else you need assistance with regarding this load?"
       response_id }, update_state c .CLOSING now)
  else
    ({ response := "Thanks. Is there anything else I should know about the delivery status or any issues you\u0027re experiencing?"
       response_id }, c)

open ConversationContext in
/-- `ConversationFlowService._handle_emergency_detection`: move to
`EMERGENCY_HANDLING`, record the trigger utterance, and answer with the
fixed acknowledgement text. -/
def handle_emergency_detection (c : ConversationContext) (user_message : String)
    (response_id : Nat) (now : String) : FlowResponse × ConversationContext :=
  let c := update_state c .EMERGENCY_HANDLING now
  let c := update_context c "emergency_trigger" (.str user_message) now
  ({ response := "I understand this is an emergency situation. First, are you and anyone else involved safe? Please tell me your exact location."
     response_id }, c)

open ConversationContext in
/-- `ConversationFlowService._handle_emergency_conversation`. -/
def handle_emergency_conversation (c : ConversationContext) (user_message : String)
    (response_id : Nat) (now : String) : FlowResponse × ConversationContext :=
  let ul := pyLower user_message
  let emergency_data : Dict :=
    (if ["safe", "okay", "fine"].any (fun w => strIn w ul) then
      [("safety_status", .str "Driver confirmed everyone is safe")]
    else if ["hurt", "injured", "medical"].any (fun w => strIn w ul) then
      [("injury_status", .str user_message), ("safety_status", .str "Injuries reported")]
    else []) ++
    (if ["highway", "i-", "mile", "exit", "road"].any (fun w => strIn w ul) then
      [("emergency_location", .str user_message)]
    else [])
  let c := if emergency_data.isEmpty then c else update_collected_data c emergency_data now
  let c := update_state c .ESCALATING now
  let c := update_collected_data c
    [("call_outcome", .str "Emergency Escalation"),
     ("escalation_status", .str "Connecting to Human Dispatcher")] now
  ({ response := "I\u0027m connecting you to a human dispatcher immediately. Please stay on the line and keep yourself safe."
     response_id }, c)

open ConversationContext in
/-- `ConversationFlowService._handle_closing`. -/
def handle_closing (c : ConversationContext) (response_id : Nat) (now : String) :
    FlowResponse × ConversationContext :=
  ({ response := "Perfect, thank you for the update. Drive safely and have a great day!"
     response_id }, update_state c .COMPLETED now)

/-- `ConversationFlowService._generate_contextual_response`: dispatch on
the current state (the final `else` covers `EMERGENCY_DETECTED`,
`ESCALATING` and `COMPLETED`). -/
def generate_contextual_response (env : FlowEnv) (c : ConversationContext)
    (user_message : String) (agent : Dict) (response_id : Nat) (now : String) :
    FlowResponse × ConversationContext :=
  match c.state with
  | .INITIALIZING => handle_initialization env c response_id now
  | .GREETING => handle_greeting_response c user_message response_id now
  | .STATUS_INQUIRY => handle_status_response env c user_message agent response_id now
  | .GATHERING_INFO => handle_info_gathering c user_message response_id now
  | .EMERGENCY_HANDLING => handle_emergency_conversation c user_message response_id now
  | .CLOSING => handle_closing c response_id now
  | _ => generate_llm_response env c user_message agent response_id now

open ConversationContext in
/-- `ConversationFlowService.process_user_message` over the live store.
The context object is aliased inside `active_conversations`, so every
mutation is written back into the store on each exit path; the outer
`try` catches a raising agent lookup and degrades to the default
response. The agent guard is Python's `if not agent:` - a falsiness
test, so both `None` and an empty agent dict take the default path
(`_update_conversation_context` persists externally through
`update_conversation`, which catches its own errors - its only
in-memory effect is refreshing `updated_at`). -/
def process_user_message (env : FlowEnv) (store : ConvStore)
    (call_id user_message : String) (response_id : Nat) (now : String) :
    FlowResponse × ConvStore :=
  match get_conversation store call_id with
  | Option.none => (default_response response_id, store)
  | some c0 =>
    let c1 := add_message c0 "user" user_message now
    let fired := detect_emergency c1 user_message now
    let c2 := fired.2
    if fired.1 = true ∧ c2.state ≠ .EMERGENCY_HANDLING then
      let rc := handle_emergency_detection c2 user_message response_id now
      (rc.1, aset store call_id rc.2)
    else
      match env.get_agent c2.agent_id with
      | .error _ => (default_response response_id, aset store call_id c2)
      | .ok Option.none => (default_response response_id, aset store call_id c2)
      | .ok (some agent) =>
        if agent.isEmpty then (default_response response_id, aset store call_id c2)
        else
          let rc := generate_contextual_response env c2 user_message agent response_id now
          let c3 := { rc.2 with updated_at := now }
          let c4 := add_message c3 "assistant" rc.1.response now
          (rc.1, aset store call_id c4)

/-! ## Driver check-in scenario configuration
(`backend/app/scenarios/driver_checkin.py`) -/

/-- One entry of a state's `edges` list in the Retell states config. -/
structure RetellEdge where
  destination_state_name : String
  description : String
  deriving DecidableEq, Repr

/-- One state dict of `DriverCheckinScenario.get_states_config`; the two
terminal dicts in the source carry no `"edges"` key, modelled as
`edges := Option.none`. -/
structure RetellState where
  name : String
  state_prompt : String
  edges : Option (List RetellEdge)
  deriving DecidableEq, Repr

namespace DriverCheckinScenario

/-- `DriverCheckinScenario.get_states_config` (driver_checkin.py lines
60-223), transcribed verbatim. -/
def get_states_config : List RetellState :=
  [
   { name := "greeting_and_identification"
     state_prompt := "You are greeting the driver and confirming their identity.\n\nBe warm and conversational. Confirm you\u0027re speaking with the right driver for the load. Listen for any immediate emergency indicators in their voice or words.\n\nIf they sound distressed or mention any emergency keywords, immediately transition to emergency protocol."
     edges := some [
       { destination_state_name := "status_assessment"
         description := "Transition when driver identity is confirmed and no emergency detected" },
       { destination_state_name := "emergency_protocol"
         description := "Immediate transition if any emergency indicators detected" }]
   },
   { name := "status_assessment"
     state_prompt := "You are assessing the driver\u0027s current status and situation.\n\nAsk about their current status in a conversational way:\n- \"How\u0027s the trip going?\"\n- \"Where are you at right now?\"\n- \"Any issues or delays I should know about?\"\n\nListen carefully for:\n- Current location (mile markers, cities, highways)\n- Whether they\u0027re driving, stopped, or have arrived\n- Any problems or delays\n- Emergency situations (immediate transfer if detected)\n\nKeep the conversation natural and flowing."
     edges := some [
       { destination_state_name := "location_and_eta"
         description := "Transition when basic status is understood" },
       { destination_state_name := "emergency_protocol"
         description := "Immediate transition if emergency detected" }]
   },
   { name := "location_and_eta"
     state_prompt := "You are gathering specific location and timing information.\n\nGet precise details about:\n- Exact current location (highway, mile marker, city)\n- ETA to destination\n- Any factors affecting arrival time\n- Traffic, weather, or route conditions\n\nAsk naturally:\n- \"What\u0027s your current location?\"\n- \"When do you think you\u0027ll be arriving?\"\n- \"Any delays or issues affecting your ETA?\"\n\nAlways listen for emergency situations."
     edges := some [
       { destination_state_name := "arrival_and_unloading"
         description := "Transition when location/ETA info is gathered" },
       { destination_state_name := "delay_management"
         description := "Transition if significant delays mentioned" },
       { destination_state_name := "emergency_protocol"
         description := "Immediate transition if emergency detected" }]
   },
   { name := "delay_management"
     state_prompt := "You are addressing delays and getting specific information about issues.\n\nWhen delays are mentioned:\n- Show understanding: \"I understand, these things happen\"\n- Get specific reasons: traffic, weather, mechanical, loading delays\n- Ask for realistic updated ETA\n- Determine if customer notification is needed\n- Check if driver needs any assistance\n\nBe empathetic but gather the facts needed for logistics planning."
     edges := some [
       { destination_state_name := "arrival_and_unloading"
         description := "Transition when delay information is documented" },
       { destination_state_name := "emergency_protocol"
         description := "Immediate transition if emergency detected" }]
   },
   { name := "arrival_and_unloading"
     state_prompt := "You are checking on arrival status and unloading information.\n\nIf driver has arrived:\n- Ask about dock assignment\n- Check unloading status and timeline\n- Note any unloading delays or issues\n\nIf driver hasn\u0027t arrived:\n- Confirm final ETA\n- Any last-minute concerns\n\nAlways address POD requirements:\n- \"Don\u0027t forget to get the POD signed before leaving\"\n- \"Make sure you get the proof of delivery paperwork\"\n\nKeep it conversational but cover all logistics needs."
     edges := some [
       { destination_state_name := "call_completion"
         description := "Transition when all information is gathered" },
       { destination_state_name := "emergency_protocol"
         description := "Immediate transition if emergency detected" }]
   },
   { name := "call_completion"
     state_prompt := "You are wrapping up the call professionally.\n\nSummarize key information:\n- Current status confirmed\n- ETA noted\n- Any issues documented\n- POD reminder given\n\nEnd warmly:\n- \"Alright, sounds good. Drive safe out there!\"\n- \"Thanks for the update. Have a safe trip!\"\n- \"Perfect, we\u0027ll update the customer. Take care!\"\n\nUse the end_call tool to complete the conversation."
     edges := Option.none },
   { name := "emergency_protocol"
     state_prompt := "EMERGENCY MODE ACTIVATED. This is a critical safety situation.\n\nIMMEDIATELY:\n1. Acknowledge the emergency calmly\n2. Ask if everyone is safe\n3. Get exact location for emergency services\n4. Determine type of emergency\n5. Keep driver on line while connecting to human dispatcher\n\nSay: \"I understand this is urgent. Let me connect you with our emergency dispatcher immediately. First, is everyone safe? What\u0027s your exact location?\"\n\nCall will end immediately for manual emergency escalation to human dispatcher."
     edges := Option.none }]

end DriverCheckinScenario

/-! ## Spec-side notions -/

/-- The spec's "emergency path" states of the conversation state machine. -/
def is_emergency_state : ConversationState → Bool
  | .EMERGENCY_DETECTED | .EMERGENCY_HANDLING | .ESCALATING => true
  | _ => false

/-- A state dict carries an edge whose destination is the dedicated
`emergency_protocol` state. -/
def has_emergency_edge (st : RetellState) : Bool :=
  match st.edges with
  | some es => es.any (fun e => e.destination_state_name == "emergency_protocol")
  | Option.none => false

end VoiceAgent

/-! ## Association-list and backfill lemmas -/

namespace VoiceAgent

theorem akeys_cons {α : Type} (p : String × α) (t : List (String × α)) :
    akeys (p :: t) = p.1 :: akeys t := rfl

theorem aget_aset_self {α : Type} (d : List (String × α)) (k : String) (v : α) :
    aget (aset d k v) k = some v := by
  induction d with
  | nil => simp [aset, aget]
  | cons p t ih =>
    obtain ⟨k', v'⟩ := p
    by_cases h : k' = k
    · simp [aset, aget, h]
    · simp [aset, aget, h, ih]

theorem aget_aset_ne {α : Type} (d : List (String × α)) (k k' : String) (v : α)
    (h : k' ≠ k) : aget (aset d k v) k' = aget d k' := by
  induction d with
  | nil => simp [aset, aget, Ne.symm h]
  | cons p t ih =>
    obtain ⟨k0, v0⟩ := p
    simp only [aset]
    by_cases h0 : k0 = k
    · subst h0
      simp [aget, Ne.symm h]
    · simp only [if_neg h0]
      by_cases h1 : k0 = k'
      · simp [aget, h1]
      · simp [aget, h1, ih]

theorem dget_aset_self (d : Dict) (k : String) (v : PyVal) :
    dget (aset d k v) k = v := by
  simp [dget, aget_aset_self]

theorem dget_aset_ne (d : Dict) (k k' : String) (v : PyVal) (h : k' ≠ k) :
    dget (aset d k v) k' = dget d k' := by
  simp [dget, aget_aset_ne _ _ _ _ h]

theorem aget_eq_none {α : Type} (d : List (String × α)) (k : String)
    (h : k ∉ akeys d) : aget d k = Option.none := by
  induction d with
  | nil => rfl
  | cons p t ih =>
    obtain ⟨k0, v0⟩ := p
    rw [akeys_cons, List.mem_cons, not_or] at h
    have hk : ¬ (k0 = k) := fun hh => h.1 hh.symm
    simp only [aget, if_neg hk]
    exact ih h.2

theorem keyCount_eq_zero {α : Type} (d : List (String × α)) (k : String)
    (h : k ∉ akeys d) : keyCount d k = 0 := by
  induction d with
  | nil => rfl
  | cons p t ih =>
    obtain ⟨k0, v0⟩ := p
    rw [akeys_cons, List.mem_cons, not_or] at h
    have hk : ¬ (k0 = k) := fun hh => h.1 hh.symm
    simp only [keyCount, List.filter_cons]
    simp [hk, keyCount] at ih ⊢
    exact ih h.2

theorem keyCount_aset {α : Type} (d : List (String × α)) (k : String) (v : α)
    (h : (akeys d).Nodup) : keyCount (aset d k v) k = 1 := by
  induction d with
  | nil => simp [aset, keyCount]
  | cons p t ih =>
    obtain ⟨k0, v0⟩ := p
    rw [akeys_cons] at h
    have hnds := List.nodup_cons.mp h
    by_cases hk : k0 = k
    · subst hk
      simp only [aset, if_pos rfl]
      have hz : keyCount t k0 = 0 := keyCount_eq_zero t k0 hnds.1
      simp [keyCount] at hz ⊢
      exact hz
    · simp only [aset, if_neg hk]
      simp only [keyCount, List.filter_cons]
      simp [hk, keyCount] at ih ⊢
      exact ih hnds.2

open NLPService in
theorem backfill_nil (c : Dict) (excl : List String) : backfill c [] excl = c := rfl

open NLPService in
theorem backfill_cons (c : Dict) (k0 : String) (v0 : PyVal) (t : Dict)
    (excl : List String) :
    backfill c ((k0, v0) :: t) excl =
      backfill (if k0 ∉ excl ∧ (dget c k0).truthy = false then aset c k0 v0 else c) t excl := rfl

open NLPService in
theorem aget_backfill_excl (items : Dict) (c : Dict) (excl : List String)
    (k : String) (h : k ∈ excl) :
    aget (backfill c items excl) k = aget c k := by
  induction items generalizing c with
  | nil => rfl
  | cons p t ih =>
    obtain ⟨k0, v0⟩ := p
    rw [backfill_cons, ih]
    split
    · next hcond => exact aget_aset_ne _ _ _ _ (fun he => hcond.1 (he ▸ h))
    · rfl

open NLPService in
theorem dget_backfill (items : Dict) (c : Dict) (excl : List String) (k : String)
    (hnd : (akeys items).Nodup) :
    dget (backfill c items excl) k =
      if k ∈ excl ∨ (dget c k).truthy = true then dget c k
      else (aget items k).getD (dget c k) := by
  induction items generalizing c with
  | nil => simp [backfill_nil, aget]
  | cons p t ih =>
    obtain ⟨k0, v0⟩ := p
    rw [akeys_cons] at hnd
    have hnds := List.nodup_cons.mp hnd
    rw [backfill_cons]
    by_cases hcond : k0 ∉ excl ∧ (dget c k0).truthy = false
    · rw [if_pos hcond, ih _ hnds.2]
      by_cases hk : k0 = k
      · subst hk
        have hz : aget t k0 = Option.none := aget_eq_none t k0 hnds.1
        simp [dget_aset_self, hcond.1, hcond.2, aget, hz]
      · rw [dget_aset_ne _ _ _ _ (fun he => hk he.symm)]
        simp [aget, hk]
    · rw [if_neg hcond, ih _ hnds.2]
      by_cases hk : k0 = k
      · subst hk
        have hor : k0 ∈ excl ∨ (dget c k0).truthy = true := by
          by_contra hno
          push_neg at hno
          exact hcond ⟨hno.1, by simpa using hno.2⟩
        rw [if_pos hor, if_pos hor]
      · simp [aget, hk]

open NLPService in
theorem dget_combine_ne (o r : Dict) (s now k : String)
    (hk4 : k ≠ "extracted_at") (hk5 : k ≠ "scenario_type") :
    dget (combine_extraction_results o r s now) k = dget (combine_core o r) k := by
  unfold combine_extraction_results
  rw [dget_aset_ne _ _ _ _ hk5, dget_aset_ne _ _ _ _ hk4]

open NLPService in
theorem dget_combine_extracted_at (o r : Dict) (s now : String) :
    dget (combine_extraction_results o r s now) "extracted_at" = .str now := by
  unfold combine_extraction_results
  rw [dget_aset_ne _ _ _ _ (by decide), dget_aset_self]

open NLPService in
theorem dget_combine_scenario_type (o r : Dict) (s now : String) :
    dget (combine_extraction_results o r s now) "scenario_type" = .str s := by
  unfold combine_extraction_results
  rw [dget_aset_self]

open NLPService in
theorem dget_combine_core_eq (o r : Dict) (k : String)
    (hk1 : k ≠ "extraction_method") (hk2 : k ≠ "confidence_score")
    (hk3 : k ≠ "error") (ho : (akeys o).Nodup) (hr : (akeys r).Nodup) :
    dget (combine_core o r) k =
      if ratGetD o "confidence_score" 0 > mkRat 4 5 then
        if (dget o k).truthy = true then dget o k else (aget r k).getD (dget o k)
      else
        if (dget r k).truthy = true then dget r k else (aget o k).getD (dget r k) := by
  unfold combine_core
  split
  · rw [dget_aset_ne _ _ _ _ hk1, dget_backfill _ _ _ _ hr]
    simp [hk1, hk2]
  · rw [dget_aset_ne _ _ _ _ hk2, dget_aset_ne _ _ _ _ hk1,
      dget_backfill _ _ _ _ ho]
    simp [hk1, hk2, hk3]

open NLPService in
theorem dget_combine_core_conf_rule (o r : Dict)
    (h : ¬ ratGetD o "confidence_score" 0 > mkRat 4 5) :
    dget (combine_core o r) "confidence_score" =
      .num (min (mkRat 4 5) (ratGetD r "confidence_score" (mkRat 3 5))) := by
  unfold combine_core
  rw [if_neg h, dget_aset_self]
  have : ratGetD (aset (backfill r o ["extraction_method", "confidence_score", "error"])
      "extraction_method" (.str "rule_based_primary")) "confidence_score" (mkRat 3 5)
      = ratGetD r "confidence_score" (mkRat 3 5) := by
    unfold ratGetD
    rw [aget_aset_ne _ _ _ _ (by decide), aget_backfill_excl _ _ _ _ (by decide)]
  rw [this]

open NLPService in
theorem dget_combine_core_conf_openai (o r : Dict)
    (h : ratGetD o "confidence_score" 0 > mkRat 4 5) :
    dget (combine_core o r) "confidence_score" = dget o "confidence_score" := by
  unfold combine_core
  rw [if_pos h, dget_aset_ne _ _ _ _ (by decide)]
  unfold dget
  rw [aget_backfill_excl _ _ _ _ (by decide)]

end VoiceAgent

/-! ## Emergency-flag monotonicity of the flow handlers -/

namespace VoiceAgent
open ConversationContext

theorem emergency_detected_update_state (c : ConversationContext)
    (st : ConversationState) (now : String) :
    (update_state c st now).emergency_detected = c.emergency_detected := rfl

theorem emergency_detected_update_context (c : ConversationContext) (k : String)
    (v : PyVal) (now : String) :
    (update_context c k v now).emergency_detected = c.emergency_detected := rfl

theorem emergency_detected_update_collected (c : ConversationContext) (d : Dict)
    (now : String) :
    (update_collected_data c d now).emergency_detected = c.emergency_detected := rfl

theorem emergency_detected_add_message (c : ConversationContext)
    (role content now : String) :
    (add_message c role content now).emergency_detected = c.emergency_detected := rfl

theorem emergency_mono_detect (c : ConversationContext) (text now : String)
    (h : c.emergency_detected = true) :
    ((detect_emergency c text now).2).emergency_detected = true := by
  unfold detect_emergency
  split <;> simp [update_state, h]

theorem emergency_mono_llm (env : FlowEnv) (c : ConversationContext)
    (msg : String) (agent : Dict) (rid : Nat) (now : String)
    (h : c.emergency_detected = true) :
    ((generate_llm_response env c msg agent rid now).2).emergency_detected = true := by
  unfold generate_llm_response
  cases env.llm msg c.conversation_history agent c.scenario_type c.state.value with
  | error e => exact h
  | ok lr =>
    dsimp only
    split
    · simp [update_state]
    · split
      · split
        · exact h
        · split <;> simp [update_state, h]
      · exact h

theorem emergency_mono_initialization (env : FlowEnv) (c : ConversationContext)
    (rid : Nat) (now : String) (h : c.emergency_detected = true) :
    ((handle_initialization env c rid now).2).emergency_detected = true := by
  unfold handle_initialization
  simp [update_state, h]

theorem emergency_mono_greeting (c : ConversationContext) (msg : String)
    (rid : Nat) (now : String) (h : c.emergency_detected = true) :
    ((handle_greeting_response c msg rid now).2).emergency_detected = true := by
  unfold handle_greeting_response
  dsimp only
  split_ifs <;> simp [update_context, update_state, h]

theorem emergency_mono_status (env : FlowEnv) (c : ConversationContext)
    (msg : String) (agent : Dict) (rid : Nat) (now : String)
    (h : c.emergency_detected = true) :
    ((handle_status_response env c msg agent rid now).2).emergency_detected = true := by
  unfold handle_status_response
  dsimp only
  split_ifs
  · simp [update_collected_data, update_state, h]
  · simp [update_collected_data, update_state, h]
  · exact emergency_mono_llm _ _ _ _ _ _ (by simp [update_state, h])

theorem emergency_mono_info (c : ConversationContext) (msg : String)
    (rid : Nat) (now : String) (h : c.emergency_detected = true) :
    ((handle_info_gathering c msg rid now).2).emergency_detected = true := by
  unfold handle_info_gathering
  dsimp only
  split_ifs <;> simp [update_collected_data, update_state, h]

theorem emergency_mono_emergency_detection (c : ConversationContext) (msg : String)
    (rid : Nat) (now : String) (h : c.emergency_detected = true) :
    ((handle_emergency_detection c msg rid now).2).emergency_detected = true := by
  simp [handle_emergency_detection, update_context, update_state, h]

theorem emergency_mono_emergency_conversation (c : ConversationContext) (msg : String)
    (rid : Nat) (now : String) (h : c.emergency_detected = true) :
    ((handle_emergency_conversation c msg rid now).2).emergency_detected = true := by
  unfold handle_emergency_conversation
  dsimp only
  split_ifs <;> simp [update_collected_data, update_state, h]

theorem emergency_mono_closing (c : ConversationContext) (rid : Nat) (now : String)
    (h : c.emergency_detected = true) :
    ((handle_closing c rid now).2).emergency_detected = true := by
  simp [handle_closing, update_state, h]

theorem emergency_mono_contextual (env : FlowEnv) (c : ConversationContext)
    (msg : String) (agent : Dict) (rid : Nat) (now : String)
    (h : c.emergency_detected = true) :
    ((generate_contextual_response env c msg agent rid now).2).emergency_detected = true := by
  unfold generate_contextual_response
  cases c.state
  case INITIALIZING => exact emergency_mono_initialization _ _ _ _ h
  case GREETING => exact emergency_mono_greeting _ _ _ _ h
  case STATUS_INQUIRY => exact emergency_mono_status _ _ _ _ _ _ h
  case GATHERING_INFO => exact emergency_mono_info _ _ _ _ h
  case EMERGENCY_HANDLING => exact emergency_mono_emergency_conversation _ _ _ _ h
  case CLOSING => exact emergency_mono_closing _ _ _ h
  case EMERGENCY_DETECTED => exact emergency_mono_llm _ _ _ _ _ _ h
  case ESCALATING => exact emergency_mono_llm _ _ _ _ _ _ h
  case COMPLETED => exact emergency_mono_llm _ _ _ _ _ _ h

end VoiceAgent

/-! ## Claim theorems -/

namespace VoiceAgent
open ConversationContext NLPService

/-- Claim C1: for a call with a live context whose state is not the
emergency-handling state, a turn whose utterance fires the trigger
detector (`ConversationContext.detect_emergency`) transitions the stored
context to `EMERGENCY_HANDLING`, sets `emergency_detected` to true, and
answers with the fixed emergency acknowledgement text - for every
environment, i.e. without consulting the agent lookup, the LLM or any
per-state handler. -/
theorem c1_emergency_preempts_dispatch (env : FlowEnv) (store : ConvStore)
    (call_id msg : String) (rid : Nat) (now : String) (c0 : ConversationContext)
    (hc : get_conversation store call_id = some c0)
    (hstate : c0.state ≠ ConversationState.EMERGENCY_HANDLING)
    (hfire : context_trigger_fired msg = true) :
    (process_user_message env store call_id msg rid now).1
      = { response := "I understand this is an emergency situation. First, are you and anyone else involved safe? Please tell me your exact location."
          response_id := rid }
    ∧ ∃ c', get_conversation (process_user_message env store call_id msg rid now).2 call_id
        = some c'
        ∧ c'.state = ConversationState.EMERGENCY_HANDLING
        ∧ c'.emergency_detected = true := by
  unfold process_user_message
  rw [hc]
  dsimp only
  have hd : detect_emergency (add_message c0 "user" msg now) msg now
      = (true, update_state { add_message c0 "user" msg now with emergency_detected := true }
          .EMERGENCY_DETECTED now) := by
    unfold detect_emergency
    rw [if_pos hfire]
  rw [hd]
  dsimp only
  rw [if_pos ⟨rfl, by intro hh; simp [update_state] at hh⟩]
  exact ⟨rfl, ⟨_, aget_aset_self _ _ _, rfl, rfl⟩⟩

/-- Witness for C1: a fresh check-in context and the utterance
"accident". -/
theorem c1_emergency_preempts_dispatch_witness :
    (process_user_message
        { get_agent := fun _ => Except.ok Option.none
          llm := fun _ _ _ _ _ => Except.error ()
          call_details := fun _ => [] }
        [("c1", ConversationContext.init "c1" "a1" ScenarioType.DRIVER_CHECKIN "t0")]
        "c1" "accident" 0 "t1").1
      = { response := "I understand this is an emergency situation. First, are you and anyone else involved safe? Please tell me your exact location."
          response_id := 0 }
    ∧ ∃ c', get_conversation (process_user_message
        { get_agent := fun _ => Except.ok Option.none
          llm := fun _ _ _ _ _ => Except.error ()
          call_details := fun _ => [] }
        [("c1", ConversationContext.init "c1" "a1" ScenarioType.DRIVER_CHECKIN "t0")]
        "c1" "accident" 0 "t1").2 "c1"
        = some c'
        ∧ c'.state = ConversationState.EMERGENCY_HANDLING
        ∧ c'.emergency_detected = true :=
  c1_emergency_preempts_dispatch _ _ "c1" "accident" 0 "t1"
    (ConversationContext.init "c1" "a1" ScenarioType.DRIVER_CHECKIN "t0")
    (by decide) (by decide) (by decide)

/-- Counterexample to C2 as stated: a call whose context is on the
emergency path (state `ESCALATING`, `emergency_detected = true`)
processes a harmless turn with a (non-empty) agent configuration found;
the dispatcher falls through to `_generate_llm_response`, which applies
the LLM-suggested `next_state = "greeting"`, so the stored state leaves
the emergency path and re-processing an escalated call is not a no-op. -/
theorem c2_leaves_emergency_path_counterexample :
    let env : FlowEnv :=
      { get_agent := fun _ => .ok (some [("id", PyVal.str "a1")])
        llm := fun _ _ _ _ _ => .ok { response := some "ok", next_state := some "greeting",
                                      emergency_detected := false }
        call_details := fun _ => [] }
    let c_esc : ConversationContext :=
      { ConversationContext.init "c1" "a1" ScenarioType.DRIVER_CHECKIN "t0" with
        state := ConversationState.ESCALATING, emergency_detected := true }
    let r := process_user_message env [("c1", c_esc)] "c1" "yes" 0 "t1"
    c_esc.emergency_detected = true
    ∧ is_emergency_state c_esc.state = true
    ∧ (get_conversation r.2 "c1").map (fun c => is_emergency_state c.state) = some false
    ∧ (get_conversation r.2 "c1").map ConversationContext.state
        = some ConversationState.GREETING := by decide

/-- Claim C2 (amended): once `emergency_detected` is true for a call's
context it is never reset by any processed turn - no handler ever
writes it back to false - but the state machine itself can leave the
emergency states (the counterexample shows an LLM-suggested transition
out of `ESCALATING`), and re-invoking escalation is not a no-op. -/
theorem c2_emergency_flag_never_reset (env : FlowEnv) (store : ConvStore)
    (call_id msg : String) (rid : Nat) (now : String) (c0 : ConversationContext)
    (hc : get_conversation store call_id = some c0)
    (hflag : c0.emergency_detected = true) :
    ∃ c', get_conversation (process_user_message env store call_id msg rid now).2 call_id
        = some c' ∧ c'.emergency_detected = true := by
  unfold process_user_message
  rw [hc]
  dsimp only
  have h1 : (add_message c0 "user" msg now).emergency_detected = true := hflag
  have h2 := emergency_mono_detect (add_message c0 "user" msg now) msg now h1
  split
  · exact ⟨_, aget_aset_self _ _ _, emergency_mono_emergency_detection _ _ _ _ h2⟩
  · cases henv : env.get_agent
      ((detect_emergency (add_message c0 "user" msg now) msg now).2).agent_id with
    | error e => exact ⟨_, aget_aset_self _ _ _, h2⟩
    | ok oagent =>
      cases oagent with
      | none => exact ⟨_, aget_aset_self _ _ _, h2⟩
      | some agent =>
        dsimp only
        split
        · exact ⟨_, aget_aset_self _ _ _, h2⟩
        · refine ⟨_, aget_aset_self _ _ _, ?_⟩
          have h3 := emergency_mono_contextual env _ msg agent rid now h2
          simpa [add_message] using h3

/-- Witness for C2 (amended): an escalated context keeps its emergency
flag across a further processed turn. -/
theorem c2_emergency_flag_never_reset_witness :
    ∃ c', get_conversation (process_user_message
        { get_agent := fun _ => .ok (some [("id", PyVal.str "a1")])
          llm := fun _ _ _ _ _ => .ok { response := some "ok", next_state := some "greeting",
                                        emergency_detected := false }
          call_details := fun _ => [] }
        [("c1", { ConversationContext.init "c1" "a1" ScenarioType.DRIVER_CHECKIN "t0" with
                  state := ConversationState.ESCALATING, emergency_detected := true })]
        "c1" "ok then" 0 "t1").2 "c1"
        = some c' ∧ c'.emergency_detected = true :=
  c2_emergency_flag_never_reset _ _ "c1" "ok then" 0 "t1"
    { ConversationContext.init "c1" "a1" ScenarioType.DRIVER_CHECKIN "t0" with
      state := ConversationState.ESCALATING, emergency_detected := true }
    (by decide) (by decide)

/-- Counterexample to C3 as stated: re-initializing an existing call id
is not a no-op - the live context (state `GREETING`, one history entry)
is replaced by a fresh context with state `INITIALIZING` and empty
history. -/
theorem c3_reinitialize_counterexample :
    let c_old := ((ConversationContext.init "c1" "a1" ScenarioType.DRIVER_CHECKIN
      "t0").update_state ConversationState.GREETING "t1").add_message "user" "hello" "t1"
    let s1 := (initialize_conversation [("c1", c_old)] "c1" "a1"
      ScenarioType.DRIVER_CHECKIN "t2").2
    get_conversation s1 "c1" ≠ some c_old
    ∧ (get_conversation s1 "c1").map (fun c => c.conversation_history.length) = some 0
    ∧ c_old.conversation_history.length = 1
    ∧ (get_conversation s1 "c1").map ConversationContext.state
        = some ConversationState.INITIALIZING := by decide

/-- Claim C3 (amended): `initialize_conversation` never raises and leaves
exactly one context per call id, but it is an overwrite, not a no-op: the
stored and returned context is always the fresh
`ConversationContext.init` value, discarding any pre-existing state,
collected fields and history for that call id. -/
theorem c3_initialize_overwrites (s : ConvStore) (cid aid : String)
    (st : ScenarioType) (now : String) (hnd : (akeys s).Nodup) :
    get_conversation (initialize_conversation s cid aid st now).2 cid
      = some (ConversationContext.init cid aid st now)
    ∧ (initialize_conversation s cid aid st now).1
        = ConversationContext.init cid aid st now
    ∧ keyCount (initialize_conversation s cid aid st now).2 cid = 1 := by
  refine ⟨?_, rfl, ?_⟩
  · exact aget_aset_self s cid _
  · exact keyCount_aset s cid _ hnd

/-- Witness for C3 (amended): initializing over a one-entry store. -/
theorem c3_initialize_overwrites_witness :
    get_conversation (initialize_conversation
      [("other", ConversationContext.init "other" "a0" ScenarioType.DRIVER_CHECKIN "t0")]
      "c1" "a1" ScenarioType.DRIVER_CHECKIN "t1").2 "c1"
      = some (ConversationContext.init "c1" "a1" ScenarioType.DRIVER_CHECKIN "t1")
    ∧ (initialize_conversation
      [("other", ConversationContext.init "other" "a0" ScenarioType.DRIVER_CHECKIN "t0")]
      "c1" "a1" ScenarioType.DRIVER_CHECKIN "t1").1
        = ConversationContext.init "c1" "a1" ScenarioType.DRIVER_CHECKIN "t1"
    ∧ keyCount (initialize_conversation
      [("other", ConversationContext.init "other" "a0" ScenarioType.DRIVER_CHECKIN "t0")]
      "c1" "a1" ScenarioType.DRIVER_CHECKIN "t1").2 "c1" = 1 :=
  c3_initialize_overwrites
    [("other", ConversationContext.init "other" "a0" ScenarioType.DRIVER_CHECKIN "t0")]
    "c1" "a1" ScenarioType.DRIVER_CHECKIN "t1" (by decide)

end VoiceAgent

namespace VoiceAgent
open NLPService

/-- Counterexample to C4 as stated: with generative confidence 0.9, the
generative field `pod_reminder_acknowledged = false` is not null, yet the
reconciler replaces it with the rule-based value - so it is false that
only null/missing fields of the primary result are backfilled. -/
theorem c4_null_only_backfill_counterexample :
    let o : Dict := [("confidence_score", PyVal.num (mkRat 9 10)),
                     ("pod_reminder_acknowledged", PyVal.bool false)]
    let r : Dict := [("pod_reminder_acknowledged", PyVal.bool true),
                     ("confidence_score", PyVal.num (mkRat 3 5))]
    ratGetD o "confidence_score" 0 > mkRat 4 5
    ∧ dget o "pod_reminder_acknowledged" ≠ PyVal.none
    ∧ dget (combine_extraction_results o r "check_in" "t0") "pod_reminder_acknowledged"
        ≠ dget o "pod_reminder_acknowledged" := by decide

/-- Claim C4 (amended): if the generative confidence exceeds 0.8 the
generative output is primary, otherwise the rule-based output is
primary; a non-metadata field of the primary is backfilled from the
secondary exactly when the primary value is falsy (None, false, 0, ""),
not only when it is null or missing; in the rule-based-primary branch
the combined confidence is `min(0.8, rule-based confidence)`, and in the
generative-primary branch the generative confidence is kept. -/
theorem c4_reconciler_characterization (o r : Dict) (s now k : String)
    (ho : (akeys o).Nodup) (hr : (akeys r).Nodup)
    (hk : k ∉ (["extraction_method", "confidence_score", "error",
                "extracted_at", "scenario_type"] : List String)) :
    (dget (combine_extraction_results o r s now) k =
      if ratGetD o "confidence_score" 0 > mkRat 4 5 then
        if (dget o k).truthy = true then dget o k else (aget r k).getD (dget o k)
      else
        if (dget r k).truthy = true then dget r k else (aget o k).getD (dget r k))
    ∧ (¬ ratGetD o "confidence_score" 0 > mkRat 4 5 →
        dget (combine_extraction_results o r s now) "confidence_score"
          = .num (min (mkRat 4 5) (ratGetD r "confidence_score" (mkRat 3 5))))
    ∧ (ratGetD o "confidence_score" 0 > mkRat 4 5 →
        dget (combine_extraction_results o r s now) "confidence_score"
          = dget o "confidence_score") := by
  simp only [List.mem_cons, List.not_mem_nil, or_false, not_or] at hk
  obtain ⟨hk1, hk2, hk3, hk4, hk5⟩ := hk
  refine ⟨?_, ?_, ?_⟩
  · rw [dget_combine_ne _ _ _ _ _ hk4 hk5, dget_combine_core_eq _ _ _ hk1 hk2 hk3 ho hr]
  · intro h
    rw [dget_combine_ne _ _ _ _ _ (by decide) (by decide),
      dget_combine_core_conf_rule _ _ h]
  · intro h
    rw [dget_combine_ne _ _ _ _ _ (by decide) (by decide),
      dget_combine_core_conf_openai _ _ h]

/-- Witness for C4 (amended): a confident generative result with a null
`current_location` is backfilled from the rule-based result. -/
theorem c4_reconciler_characterization_witness :
    dget (combine_extraction_results
      [("confidence_score", PyVal.num (mkRat 9 10)), ("current_location", PyVal.none)]
      [("current_location", PyVal.str "I-10"), ("confidence_score", PyVal.num (mkRat 3 5))]
      "check_in" "t0") "current_location" = PyVal.str "I-10" := by
  have h := (c4_reconciler_characterization
    [("confidence_score", PyVal.num (mkRat 9 10)), ("current_location", PyVal.none)]
    [("current_location", PyVal.str "I-10"), ("confidence_score", PyVal.num (mkRat 3 5))]
    "check_in" "t0" "current_location" (by decide) (by decide) (by decide)).1
  rw [h]
  decide

/-- Claim C5: `detect_emergency_trigger` returns true exactly when the
message contains, case-insensitively, at least one term of the fixed
emergency vocabulary as a substring, and `extract_emergency_keywords`
returns exactly the vocabulary terms so contained (in vocabulary order);
both are pure functions of the message, which in this embedding is
witnessed by their plain function types (no state argument). -/
theorem c5_trigger_detector_pure_substring (m : String) :
    (detect_emergency_trigger m = true ↔
      ∃ kw ∈ NLPService.emergency_keywords, containsCI m kw = true)
    ∧ extract_emergency_keywords m
        = NLPService.emergency_keywords.filter (fun kw => containsCI m kw) := by
  have hfix : ∀ kw ∈ NLPService.emergency_keywords, pyLower kw = kw := by decide
  constructor
  · rw [detect_emergency_trigger, List.any_eq_true]
    constructor
    · rintro ⟨kw, hmem, h⟩
      exact ⟨kw, hmem, by rw [containsCI, hfix kw hmem]; exact h⟩
    · rintro ⟨kw, hmem, h⟩
      exact ⟨kw, hmem, by rw [containsCI, hfix kw hmem] at h; exact h⟩
  · rw [extract_emergency_keywords]
    apply List.filter_congr
    intro kw hmem
    rw [containsCI, hfix kw hmem]

/-- Counterexample to C6 as stated: delivering `add_message` twice with
identical role and text is not a no-op - the second call appends a second
history entry instead of being deduplicated. -/
theorem c6_duplicate_append_counterexample :
    let c := ConversationContext.init "c1" "a1" ScenarioType.DRIVER_CHECKIN "t0"
    let c1 := c.add_message "user" "hi" "t1"
    let c2 := c1.add_message "user" "hi" "t1"
    c2 ≠ c1 ∧ c1.conversation_history.length = 1
    ∧ c2.conversation_history.length = 2 := by decide

/-- Claim C6 (amended): `add_message` is append-only and auto-increments
the turn index, but duplicate deliveries are not deduplicated: a second
identical call appends a second entry, so the history grows by two under
duplicate delivery. -/
theorem c6_add_message_appends (c : ConversationContext) (role content now : String) :
    (c.add_message role content now).conversation_history
      = c.conversation_history ++
        [{ role := role, content := content, timestamp := now,
           turn := c.turn_count, metadata := [] }]
    ∧ (c.add_message role content now).turn_count = c.turn_count + 1
    ∧ ((c.add_message role content now).add_message role content now).conversation_history.length
      = c.conversation_history.length + 2 := by
  refine ⟨rfl, rfl, ?_⟩
  simp [ConversationContext.add_message]

/-- Counterexample to C7 as stated: the same transcript extracted twice
with the same deterministic generative stub yields results that are not
field-identical - the `extracted_at` timestamp field differs between the
two runs. -/
theorem c7_extracted_at_counterexample :
    (extract_structured_data [("confidence_score", PyVal.num (mkRat 9 10))] []
        (fun _ => Option.none) (fun _ => Option.none) "pod" "check_in" "2024-01-01T00:00:00"
      ≠ extract_structured_data [("confidence_score", PyVal.num (mkRat 9 10))] []
        (fun _ => Option.none) (fun _ => Option.none) "pod" "check_in" "2024-01-01T00:00:01")
    ∧ dget (extract_structured_data [("confidence_score", PyVal.num (mkRat 9 10))] []
        (fun _ => Option.none) (fun _ => Option.none) "pod" "check_in" "2024-01-01T00:00:00")
        "extracted_at" = PyVal.str "2024-01-01T00:00:00"
    ∧ dget (extract_structured_data [("confidence_score", PyVal.num (mkRat 9 10))] []
        (fun _ => Option.none) (fun _ => Option.none) "pod" "check_in" "2024-01-01T00:00:01")
        "extracted_at" = PyVal.str "2024-01-01T00:00:01" := by decide

/-- Claim C7 (amended): with a deterministic generative stub and fixed
regex helpers, two runs of `extract_structured_data` on the same
transcript and scenario agree on every field except the `extracted_at`
timestamp, which records the wall-clock time of each run. -/
theorem c7_extract_deterministic_except_timestamp (oc oe : Dict)
    (eL eE : String → Option String) (t s n1 n2 k : String)
    (hk : k ≠ "extracted_at") :
    dget (extract_structured_data oc oe eL eE t s n1) k
      = dget (extract_structured_data oc oe eL eE t s n2) k := by
  have key : ∀ (o r : Dict) (st : String),
      dget (combine_extraction_results o r st n1) k
        = dget (combine_extraction_results o r st n2) k := by
    intro o r st
    by_cases hs : k = "scenario_type"
    · subst hs
      rw [dget_combine_scenario_type, dget_combine_scenario_type]
    · rw [dget_combine_ne _ _ _ _ _ hk hs, dget_combine_ne _ _ _ _ _ hk hs]
  unfold extract_structured_data
  split
  · exact key _ _ _
  · split
    · exact key _ _ _
    · rfl

/-- Witness for C7 (amended): two runs at distinct timestamps agree on
`pod_reminder_acknowledged`. -/
theorem c7_extract_deterministic_except_timestamp_witness :
    dget (extract_structured_data [("confidence_score", PyVal.num (mkRat 9 10))] []
      (fun _ => Option.none) (fun _ => Option.none) "pod" "check_in" "t1")
      "pod_reminder_acknowledged"
    = dget (extract_structured_data [("confidence_score", PyVal.num (mkRat 9 10))] []
      (fun _ => Option.none) (fun _ => Option.none) "pod" "check_in" "t2")
      "pod_reminder_acknowledged" :=
  c7_extract_deterministic_except_timestamp _ _ _ _ _ _ _ _ _ (by decide)

end VoiceAgent

namespace VoiceAgent
open ConversationContext

/-- Claim C8: a turn event for a call id with no live context, and a turn
event whose processing raises an internal exception (here: a raising
agent lookup, the one awaited call the outer `try` can catch on the
non-emergency path), both return the fixed safe generic fallback
response carrying the caller's response id; `process_user_message` is a
total function, so no error ever propagates to the voice session. -/
theorem c8_fallback_on_missing_context_and_errors (env : FlowEnv)
    (store : ConvStore) (call_id msg : String) (rid : Nat) (now : String) :
    (get_conversation store call_id = Option.none →
      process_user_message env store call_id msg rid now = (default_response rid, store))
    ∧ (∀ (c0 : ConversationContext), get_conversation store call_id = some c0 →
        env.get_agent c0.agent_id = Except.error () →
        context_trigger_fired msg = false →
        (process_user_message env store call_id msg rid now).1 = default_response rid) := by
  constructor
  · intro h
    unfold process_user_message
    rw [h]
  · intro c0 hc herr hfire
    unfold process_user_message
    rw [hc]
    dsimp only
    simp only [detect_emergency, hfire, if_false, Bool.false_eq_true, false_and]
    have hagent : env.get_agent (add_message c0 "user" msg now).agent_id
        = Except.error () := herr
    rw [hagent]

/-- Witness for C8: an empty store, and a store with a context whose
agent lookup raises. -/
theorem c8_fallback_on_missing_context_and_errors_witness :
    process_user_message
      { get_agent := fun _ => Except.ok Option.none
        llm := fun _ _ _ _ _ => Except.error ()
        call_details := fun _ => [] }
      [] "c1" "hello" 7 "t1" = (default_response 7, [])
    ∧ (process_user_message
      { get_agent := fun _ => Except.error ()
        llm := fun _ _ _ _ _ => Except.error ()
        call_details := fun _ => [] }
      [("c2", ConversationContext.init "c2" "a2" ScenarioType.DRIVER_CHECKIN "t0")]
      "c2" "hello" 7 "t1").1 = default_response 7 :=
  ⟨(c8_fallback_on_missing_context_and_errors _ [] "c1" "hello" 7 "t1").1 rfl,
   (c8_fallback_on_missing_context_and_errors _
      [("c2", ConversationContext.init "c2" "a2" ScenarioType.DRIVER_CHECKIN "t0")]
      "c2" "hello" 7 "t1").2
     (ConversationContext.init "c2" "a2" ScenarioType.DRIVER_CHECKIN "t0")
     (by decide) rfl (by decide)⟩

/-- Counterexample to C9 as stated: the `call_completion` state of the
driver check-in state graph defines no edges at all (and neither does
`emergency_protocol`), so not every state has an always-available edge
to the dedicated emergency state. -/
theorem c9_every_state_counterexample :
    (DriverCheckinScenario.get_states_config.get? 5).map RetellState.name
      = some "call_completion"
    ∧ (DriverCheckinScenario.get_states_config.get? 5).map has_emergency_edge
      = some false
    ∧ ¬ (∀ st ∈ DriverCheckinScenario.get_states_config,
          has_emergency_edge st = true) := by decide

/-- Claim C9 (amended): every state of the driver check-in graph that
defines transitions has an edge to the dedicated `emergency_protocol`
state; the only states without such an edge are the two that define no
edges at all, the terminal `call_completion` state and the
`emergency_protocol` state itself (the priority of the emergency edge is
expressed only in the edge description prose, not in the data). -/
theorem c9_emergency_edge_on_every_transitioning_state :
    DriverCheckinScenario.get_states_config.all
      (fun st =>
        if st.edges.isSome then has_emergency_edge st
        else st.name == "call_completion" || st.name == "emergency_protocol") = true := by
  decide

end VoiceAgent

namespace VoiceAgent
open NLPService

/-- Claim C10: the reconciler backfills a primary field whenever its
value is falsy - in particular a genuinely extracted boolean false is
falsy - so for any confident generative result with
`pod_reminder_acknowledged = false`, combining with the rule-based
extraction of the transcript "pod" (whose POD check is true) silently
replaces the false with true, for arbitrary regex helper results. -/
theorem c10_falsy_backfill (o : Dict) (eL eE : String → Option String)
    (now : String) (ho : (akeys o).Nodup)
    (hconf : ratGetD o "confidence_score" 0 > mkRat 4 5)
    (hpod : dget o "pod_reminder_acknowledged" = PyVal.bool false) :
    (dget o "pod_reminder_acknowledged").truthy = false
    ∧ dget (combine_extraction_results o (rule_based_extract_checkin eL eE "pod")
        "check_in" now) "pod_reminder_acknowledged" = PyVal.bool true := by
  have hrkeys : (akeys (rule_based_extract_checkin eL eE "pod")).Nodup := by
    have he : akeys (rule_based_extract_checkin eL eE "pod") =
      ["call_outcome", "driver_status", "current_location", "eta", "delay_reason",
       "unloading_status", "pod_reminder_acknowledged", "extraction_method",
       "confidence_score"] := rfl
    rw [he]
    decide
  constructor
  · rw [hpod]
    rfl
  · rw [dget_combine_ne _ _ _ _ _ (by decide) (by decide),
      dget_combine_core_eq _ _ _ (by decide) (by decide) (by decide) ho hrkeys,
      if_pos hconf, hpod, if_neg (by decide)]
    have hval : aget (rule_based_extract_checkin eL eE "pod") "pod_reminder_acknowledged"
        = some (PyVal.bool true) := rfl
    rw [hval]
    rfl

/-- Witness for C10: a concrete confident generative result with
`pod_reminder_acknowledged = false`. -/
theorem c10_falsy_backfill_witness :
    (dget [("confidence_score", PyVal.num (mkRat 9 10)),
           ("pod_reminder_acknowledged", PyVal.bool false)]
        "pod_reminder_acknowledged").truthy = false
    ∧ dget (combine_extraction_results
        [("confidence_score", PyVal.num (mkRat 9 10)),
         ("pod_reminder_acknowledged", PyVal.bool false)]
        (rule_based_extract_checkin (fun _ => Option.none) (fun _ => Option.none) "pod")
        "check_in" "t0") "pod_reminder_acknowledged" = PyVal.bool true :=
  c10_falsy_backfill
    [("confidence_score", PyVal.num (mkRat 9 10)),
     ("pod_reminder_acknowledged", PyVal.bool false)]
    (fun _ => Option.none) (fun _ => Option.none) "t0"
    (by decide) (by decide) (by decide)

end VoiceAgent
